import Mathlib

/-!
Verification of the backup-job subsystem of the bitwarden-backup repository.
The definitions below are a shallow embedding of `src/api/jobs.py` and of the
job routes in `src/api/routes/jobs.py`.  Timestamps are modelled as natural
numbers (the code stores ISO strings; only order and identity of the values
matter to the properties).  The Redis store is modelled by explicit state:
a job record, an append-only list of log entries, and (for the cleanup sweep)
a keyed store with a score index.
-/

/-- Mirrors the `JobStatus` string enum of `src/api/jobs.py`. -/
inductive JobStatus where
  | pending
  | running
  | completed
  | failed
  | cancelled
deriving DecidableEq, Repr

/-- The string value of each enum member, as stored in Redis. -/
def JobStatus.value : JobStatus → String
  | .pending => "pending"
  | .running => "running"
  | .completed => "completed"
  | .failed => "failed"
  | .cancelled => "cancelled"

/-- Terminal statuses: the tuple `(COMPLETED, FAILED, CANCELLED)` used at
`update_job` and at the stream loop of `routes/jobs.py`. -/
def JobStatus.isTerminal : JobStatus → Bool
  | .completed => true
  | .failed => true
  | .cancelled => true
  | _ => false

/-- One log entry, as appended by `BackupJobManager.add_log`. -/
structure LogEntry where
  timestamp : Nat
  level : String
  message : String
deriving DecidableEq, Repr

/-- The persisted job record written by `create_job` and `update_job`.
The `result` payload is a JSON object; the only payload the code ever writes
is a string-to-integer mapping, modelled as an association list. -/
structure JobRecord where
  id : String
  status : JobStatus
  created_at : Nat
  started_at : Option Nat
  completed_at : Option Nat
  progress : Int
  current_step : String
  error : Option String
  result : Option (List (String × Int))
deriving DecidableEq, Repr

/-- Mirrors the `JobUpdate` dataclass: each field independently optional. -/
structure JobUpdate where
  status : Option JobStatus := none
  progress : Option Int := none
  current_step : Option String := none
  error : Option String := none
  result : Option (List (String × Int)) := none

/-- The initial record written by `BackupJobManager.create_job`. -/
def create_job (id : String) (now : Nat) : JobRecord :=
  { id := id
    status := JobStatus.pending
    created_at := now
    started_at := none
    completed_at := none
    progress := 0
    current_step := "Initializing..."
    error := none
    result := none }

/-- The status branch of `update_job` (lines 96-101 of `src/api/jobs.py`):
assign the status; stamp `started_at` on a RUNNING update when it is unset,
else stamp `completed_at` on any terminal update. -/
def applyStatus (now : Nat) (u : JobUpdate) (job : JobRecord) : JobRecord :=
  match u.status with
  | none => job
  | some st =>
    let j := { job with status := st }
    if st = JobStatus.running ∧ job.started_at = none then
      { j with started_at := some now }
    else if st.isTerminal then
      { j with completed_at := some now }
    else j

/-- The progress branch of `update_job`. -/
def applyProgress (u : JobUpdate) (job : JobRecord) : JobRecord :=
  match u.progress with
  | none => job
  | some p => { job with progress := p }

/-- The current-step branch of `update_job`. -/
def applyStep (u : JobUpdate) (job : JobRecord) : JobRecord :=
  match u.current_step with
  | none => job
  | some s => { job with current_step := s }

/-- The error branch of `update_job`. -/
def applyError (u : JobUpdate) (job : JobRecord) : JobRecord :=
  match u.error with
  | none => job
  | some e => { job with error := some e }

/-- The result branch of `update_job`. -/
def applyResult (u : JobUpdate) (job : JobRecord) : JobRecord :=
  match u.result with
  | none => job
  | some r => { job with result := some r }

/-- Embeds `BackupJobManager.update_job` on an existing record: the five optional
fields applied in source order. -/
def update_job (now : Nat) (u : JobUpdate) (job : JobRecord) : JobRecord :=
  applyResult u (applyError u (applyStep u (applyProgress u (applyStatus now u job))))

/-- Job record together with its append-only log list. -/
structure JobState where
  record : JobRecord
  logs : List LogEntry
deriving DecidableEq, Repr

/-- Embeds `BackupJobManager.add_log`: append one timestamped entry. -/
def add_log (now : Nat) (level message : String) (s : JobState) : JobState :=
  { s with logs := s.logs ++ [⟨now, level, message⟩] }

/-- Python substring containment (`pat in s`). -/
def strIn (pat s : String) : Bool := decide (pat.toList <:+: s.toList)

theorem strIn_iff (pat s : String) : strIn pat s = true ↔ pat.toList <:+: s.toList := by
  simp [strIn]

/-- Python `str.strip()`: drop whitespace from both ends (written over the
character list so that it evaluates inside the kernel). -/
def pyStrip (s : String) : String :=
  ⟨((s.toList.dropWhile Char.isWhitespace).reverse.dropWhile Char.isWhitespace).reverse⟩

/-- Python `str.lower()` (written over the character list so that it
evaluates inside the kernel). -/
def lowerStr (s : String) : String :=
  ⟨s.toList.map Char.toLower⟩

/-- Embeds `_parse_log_level` of `src/api/jobs.py` (lines 231-239), verbatim:
bracketed or plain token, scanned ERROR, WARN, SUCCESS, default INFO. -/
def parse_log_level (line : String) : String :=
  if strIn "[ERROR]" line || strIn "ERROR" line then "ERROR"
  else if strIn "[WARN]" line || strIn "WARN" line then "WARN"
  else if strIn "[SUCCESS]" line || strIn "SUCCESS" line then "SUCCESS"
  else "INFO"

/-- Embeds `PROGRESS_MAP` of `src/api/jobs.py`, in insertion order (Python dicts
iterate in insertion order). -/
def PROGRESS_MAP : List (String × Int) :=
  [("Logging out", 25),
   ("Checking for required dependencies", 30),
   ("Validating environment", 35),
   ("Configuring Bitwarden server", 40),
   ("Logging into Bitwarden", 45),
   ("Unlocking vault", 50),
   ("Exporting vault data", 55),
   ("Syncing vault data", 60),
   ("Performing secure compression", 65),
   ("Validating the encrypted backup", 70),
   ("Checking for changes", 75),
   ("Uploading backup", 80),
   ("Pruning old backups", 90),
   ("completed successfully", 100)]

/-- The keyword scan of `_run_backup_script` (lines 262-266): first entry of
`PROGRESS_MAP` whose keyword occurs case-insensitively in the line. -/
def firstKeyword (line : String) : Option (String × Int) :=
  PROGRESS_MAP.find? fun kv => strIn (lowerStr kv.1) (lowerStr line)

/-- The body of the output loop of `_run_backup_script` (lines 254-266) for
one raw output line: strip it, skip if empty, else append one log entry with
the parsed level and apply the first matching progress keyword. -/
def processLine (now : Nat) (s : JobState) (rawLine : String) : JobState :=
  let line := pyStrip rawLine
  if line = "" then s
  else
    let s := add_log now (parse_log_level line) line s
    match firstKeyword line with
    | some kv =>
      { s with record := update_job now { progress := some kv.2, current_step := some kv.1 } s.record }
    | none => s

/-- The stdout echo loop of `_run_setup_script` (lines 215-218): each
non-blank line of the stripped stdout is logged as INFO with a setup marker. -/
def setupStdoutLogs (now : Nat) (stdoutTxt : String) (s : JobState) : JobState :=
  if stdoutTxt = "" then s
  else
    ((pyStrip stdoutTxt).splitOn "\n").foldl
      (fun st l => if pyStrip l = "" then st else add_log now "INFO" ("[setup] " ++ l) st) s

/-- Embeds `_run_setup_script` (lines 202-228) after the setup process has exited
with code `rc`, stdout `outTxt` and stderr `errTxt`.  Returns the new state
and the boolean the function returns (True on success). -/
def run_setup_script (now : Nat) (rc : Int) (outTxt errTxt : String) (s : JobState) : JobState × Bool :=
  let s := { s with record := update_job now { progress := some 10, current_step := some "Setting up rclone configuration..." } s.record }
  let s := add_log now "INFO" "Running setup-rclone.sh" s
  let s := setupStdoutLogs now outTxt s
  if rc ≠ 0 then
    let errMsg := if errTxt ≠ "" then errTxt else "Setup failed"
    let s := add_log now "ERROR" ("Setup failed: " ++ errMsg) s
    let s := { s with record := update_job now { status := some JobStatus.failed, error := some errMsg, current_step := some "Setup failed" } s.record }
    (s, false)
  else
    let s := add_log now "SUCCESS" "Rclone setup completed" s
    let s := { s with record := update_job now { progress := some 20, current_step := some "Running backup script..." } s.record }
    (s, true)

/-- The exit handling of `_run_backup_script` (lines 268-286): exit code 0
completes the job with progress 100 and a result payload, non-zero fails it
naming the exit code. -/
def backupExit (now : Nat) (rc : Int) (s : JobState) : JobState :=
  if rc = 0 then
    let r := update_job now
      { status := some JobStatus.completed, progress := some 100,
        current_step := some "Backup completed successfully",
        result := some [("exit_code", 0)] } s.record
    add_log now "SUCCESS" "Backup job completed successfully" { s with record := r }
  else
    let msg := "Backup script exited with code " ++ toString rc
    let r := update_job now
      { status := some JobStatus.failed, error := some msg, current_step := some "Backup failed" } s.record
    add_log now "ERROR" msg { s with record := r }

/-- Embeds `_run_backup_script` (lines 242-286) given the list of raw output lines
of the backup process and its exit code. -/
def run_backup_script (now : Nat) (lines : List String) (rc : Int) (s : JobState) : JobState :=
  let s := add_log now "INFO" "Starting backup.sh script" s
  let s := lines.foldl (processLine now) s
  backupExit now rc s

/-- The initial RUNNING update of `run_backup_job` (lines 293-298). -/
def runJobStart (now : Nat) (s : JobState) : JobState :=
  let r := update_job now
    { status := some JobStatus.running, progress := some 0,
      current_step := some "Starting backup process..." } s.record
  add_log now "INFO" "Backup job started" { s with record := r }

/-- The non-cancelled, non-crashing path of `run_backup_job` (lines 289-306):
start, run setup, and run the backup script only when setup succeeded.
Returns the final state and whether the backup step ran. -/
def run_backup_job (now : Nat) (setupRc : Int) (setupOut setupErr : String)
    (backupLines : List String) (backupRc : Int) (s : JobState) : JobState × Bool :=
  let s := runJobStart now s
  let (s, ok) := run_setup_script now setupRc setupOut setupErr s
  if ok then (run_backup_script now backupLines backupRc s, true) else (s, false)

/-- The store effect of the `POST /jobs/id/cancel` route (lines 226-255 of
`src/api/routes/jobs.py`) on an existing job: `none` models the 400 response
for a non-cancellable status; otherwise the returned boolean records whether
`cancel_running_job` was invoked, which the route does only when the current
status is RUNNING. -/
def cancelJobRoute (now : Nat) (s : JobState) : Option (JobState × Bool) :=
  if s.record.status = JobStatus.pending ∨ s.record.status = JobStatus.running then
    let signalled := decide (s.record.status = JobStatus.running)
    let s := { s with record := update_job now { status := some JobStatus.cancelled } s.record }
    let s := add_log now "WARN" "Job cancelled by user" s
    some (s, signalled)
  else none

/-- Embeds `BackupJobManager.get_new_logs` (lines 141-146): `LRANGE key last -1`
returns the entries from index `last` to the end; the new cursor advances by
the number of entries returned. -/
def get_new_logs (logs : List LogEntry) (last : Nat) : List LogEntry × Nat :=
  let ls := logs.drop last
  (ls, last + ls.length)

/-- The events of the SSE stream of `routes/jobs.py` (`event_generator`). -/
inductive StreamEvent where
  | statusEv (status : String) (progress : Int) (step : String) (err : Option String)
  | logEv (e : LogEntry)
  | doneEv (status : String) (result : Option (List (String × Int))) (err : Option String)
  | errEv
deriving DecidableEq, Repr

/-- The mutable locals of `event_generator` (lines 163-167): the log cursor
starts at 0, and the last emitted progress and status start at the sentinels
-1 and the empty string. -/
structure StreamCursor where
  lastLogIndex : Nat
  lastProgress : Int
  lastStatus : String
deriving DecidableEq, Repr

def initialCursor : StreamCursor := ⟨0, -1, ""⟩

/-- One iteration of the polling loop of `event_generator` (lines 169-208):
given the job record as read (none once the key expired) and the full log
list, yield the events of this iteration, the new cursor, and whether the
loop breaks. -/
def generatorIter (job : Option JobRecord) (logs : List LogEntry) (c : StreamCursor) :
    List StreamEvent × StreamCursor × Bool :=
  match job with
  | none => ([StreamEvent.errEv], c, true)
  | some j =>
    let p :=
      if j.status.value ≠ c.lastStatus ∨ j.progress ≠ c.lastProgress then
        ([StreamEvent.statusEv j.status.value j.progress j.current_step j.error],
         { c with lastStatus := j.status.value, lastProgress := j.progress })
      else ([], c)
    let stEvs := p.1
    let c := p.2
    let q := get_new_logs logs c.lastLogIndex
    let c := { c with lastLogIndex := q.2 }
    let logEvs := q.1.map StreamEvent.logEv
    if j.status.isTerminal then
      (stEvs ++ logEvs ++ [StreamEvent.doneEv j.status.value j.result j.error], c, true)
    else
      (stEvs ++ logEvs, c, false)

/-- The Redis state touched by `cleanup_old_jobs`: the sorted-set index of
`(job id, creation score)` pairs and the keyed record and log stores. -/
structure Store where
  index : List (String × Nat)
  records : String → Option JobRecord
  jobLogs : String → Option (List LogEntry)

/-- Redis `ZRANGEBYSCORE key lo hi`: members whose score is within the inclusive
range. -/
def zrangebyscore (idx : List (String × Nat)) (lo hi : Int) : List String :=
  (idx.filter fun e => decide (lo ≤ (e.2 : Int) ∧ (e.2 : Int) ≤ hi)).map Prod.fst

/-- Redis `DEL key` on a keyed store. -/
def deleteKey {α : Type} (f : String → Option α) (k : String) : String → Option α :=
  fun x => if x = k then none else f x

/-- Embeds `BackupJobManager.cleanup_old_jobs` (lines 170-180): collect the ids with
score in `[0, now - maxAgeDays*86400]`, delete each record and log key,
remove the score range from the index, and return how many ids were
collected. -/
def cleanup_old_jobs (now : Int) (maxAgeDays : Int) (st : Store) : Store × Nat :=
  let cutoff := now - maxAgeDays * 86400
  let oldJobs := zrangebyscore st.index 0 cutoff
  let records := oldJobs.foldl deleteKey st.records
  let logs := oldJobs.foldl deleteKey st.jobLogs
  let index := st.index.filter fun e => !decide ((0 : Int) ≤ (e.2 : Int) ∧ (e.2 : Int) ≤ cutoff)
  ({ index := index, records := records, jobLogs := logs }, oldJobs.length)

/-- A sequence of timed `update_job` calls applied to a record. -/
def applyUpdates (job : JobRecord) : List (Nat × JobUpdate) → JobRecord
  | [] => job
  | (t, u) :: rest => applyUpdates (update_job t u job) rest

/-- Whether an update carries a terminal status. -/
def updTerminal (u : JobUpdate) : Bool :=
  match u.status with
  | some s => s.isTerminal
  | none => false

lemma applyProgress_eq (u : JobUpdate) (j : JobRecord) :
    applyProgress u j = { j with progress := match u.progress with | some p => p | none => j.progress } := by
  cases h : u.progress <;> simp [applyProgress, h]

lemma applyStep_eq (u : JobUpdate) (j : JobRecord) :
    applyStep u j = { j with current_step := match u.current_step with | some s => s | none => j.current_step } := by
  cases h : u.current_step <;> simp [applyStep, h]

lemma applyError_eq (u : JobUpdate) (j : JobRecord) :
    applyError u j = { j with error := match u.error with | some e => some e | none => j.error } := by
  cases h : u.error <;> simp [applyError, h]

lemma applyResult_eq (u : JobUpdate) (j : JobRecord) :
    applyResult u j = { j with result := match u.result with | some r => some r | none => j.result } := by
  cases h : u.result <;> simp [applyResult, h]

lemma applyStatus_eq (now : Nat) (u : JobUpdate) (j : JobRecord) :
    applyStatus now u j =
      { j with
        status := match u.status with | some st => st | none => j.status
        started_at :=
          if u.status = some JobStatus.running ∧ j.started_at = none then some now else j.started_at
        completed_at :=
          if updTerminal u then some now else j.completed_at } := by
  cases hs : u.status with
  | none => simp [applyStatus, hs, updTerminal]
  | some st =>
    cases st <;> cases hsa : j.started_at <;>
      simp [applyStatus, hs, hsa, updTerminal, JobStatus.isTerminal]

lemma update_job_status (now : Nat) (u : JobUpdate) (j : JobRecord) :
    (update_job now u j).status = match u.status with | some st => st | none => j.status := by
  simp [update_job, applyResult_eq, applyError_eq, applyStep_eq, applyProgress_eq, applyStatus_eq]

lemma update_job_started_at (now : Nat) (u : JobUpdate) (j : JobRecord) :
    (update_job now u j).started_at =
      if u.status = some JobStatus.running ∧ j.started_at = none then some now else j.started_at := by
  simp [update_job, applyResult_eq, applyError_eq, applyStep_eq, applyProgress_eq, applyStatus_eq]

lemma update_job_completed_at (now : Nat) (u : JobUpdate) (j : JobRecord) :
    (update_job now u j).completed_at =
      if updTerminal u then some now else j.completed_at := by
  simp [update_job, applyResult_eq, applyError_eq, applyStep_eq, applyProgress_eq, applyStatus_eq]

lemma update_job_progress (now : Nat) (u : JobUpdate) (j : JobRecord) :
    (update_job now u j).progress = match u.progress with | some p => p | none => j.progress := by
  simp [update_job, applyResult_eq, applyError_eq, applyStep_eq, applyProgress_eq, applyStatus_eq]

lemma update_job_current_step (now : Nat) (u : JobUpdate) (j : JobRecord) :
    (update_job now u j).current_step =
      match u.current_step with | some s => s | none => j.current_step := by
  simp [update_job, applyResult_eq, applyError_eq, applyStep_eq, applyProgress_eq, applyStatus_eq]

lemma update_job_error (now : Nat) (u : JobUpdate) (j : JobRecord) :
    (update_job now u j).error = match u.error with | some e => some e | none => j.error := by
  simp [update_job, applyResult_eq, applyError_eq, applyStep_eq, applyProgress_eq, applyStatus_eq]

lemma update_job_result (now : Nat) (u : JobUpdate) (j : JobRecord) :
    (update_job now u j).result = match u.result with | some r => some r | none => j.result := by
  simp [update_job, applyResult_eq, applyError_eq, applyStep_eq, applyProgress_eq, applyStatus_eq]

/-- C8: with a single writer, reading from cursor 0 and then from the
returned cursor yields first exactly the entries present at the first call
and then exactly the entries appended in between: together every entry
exactly once, in order. -/
theorem c8_incremental_logs_exact (l1 l2 : List LogEntry) :
    (get_new_logs l1 0).1 = l1 ∧
    (get_new_logs (l1 ++ l2) (get_new_logs l1 0).2).1 = l2 ∧
    (get_new_logs l1 0).1 ++ (get_new_logs (l1 ++ l2) (get_new_logs l1 0).2).1 = l1 ++ l2 := by
  refine ⟨by simp [get_new_logs], ?_, ?_⟩ <;>
    simp [get_new_logs, List.drop_left]

/-- C10: for a job record that exists at the first poll, the first event the
stream generator emits is a status event, because the cursor sentinels (empty
status string, progress -1) never match a real record. -/
theorem c10_first_event_is_status (j : JobRecord) (logs : List LogEntry) :
    (generatorIter (some j) logs initialCursor).1.head? =
      some (StreamEvent.statusEv j.status.value j.progress j.current_step j.error) := by
  have hne : j.status.value ≠ "" := by cases j.status <;> simp [JobStatus.value]
  have hcond : j.status.value ≠ initialCursor.lastStatus ∨ j.progress ≠ initialCursor.lastProgress :=
    Or.inl (by simpa [initialCursor] using hne)
  simp only [generatorIter]
  rw [if_pos hcond]
  cases hT : j.status.isTerminal <;> simp

/-- C7: when the backup process exits with code 0 the job is completed with
progress 100, a result payload carrying the exit code, and a SUCCESS log
entry; with a non-zero code it is failed with an error naming the code and an
ERROR log entry. -/
theorem c7_backup_exit_outcome (now : Nat) (rc : Int) (s : JobState) :
    (rc = 0 →
      (backupExit now rc s).record.status = JobStatus.completed ∧
      (backupExit now rc s).record.progress = 100 ∧
      (backupExit now rc s).record.result = some [("exit_code", 0)] ∧
      (backupExit now rc s).logs.getLast? =
        some ⟨now, "SUCCESS", "Backup job completed successfully"⟩) ∧
    (rc ≠ 0 →
      (backupExit now rc s).record.status = JobStatus.failed ∧
      (backupExit now rc s).record.error =
        some ("Backup script exited with code " ++ toString rc) ∧
      (backupExit now rc s).logs.getLast? =
        some ⟨now, "ERROR", "Backup script exited with code " ++ toString rc⟩) := by
  constructor
  · intro h
    subst h
    simp [backupExit, add_log, update_job_status, update_job_progress, update_job_result,
      List.getLast?_concat]
  · intro h
    simp [backupExit, h, add_log, update_job_status, update_job_error, List.getLast?_concat]

theorem c7_backup_exit_outcome_witness :
    ((backupExit 3 0 ⟨create_job "job-7" 0, []⟩).record.status = JobStatus.completed ∧
     (backupExit 3 0 ⟨create_job "job-7" 0, []⟩).record.progress = 100 ∧
     (backupExit 3 0 ⟨create_job "job-7" 0, []⟩).record.result = some [("exit_code", 0)] ∧
     (backupExit 3 0 ⟨create_job "job-7" 0, []⟩).logs.getLast? =
       some ⟨3, "SUCCESS", "Backup job completed successfully"⟩) ∧
    ((backupExit 3 2 ⟨create_job "job-7" 0, []⟩).record.status = JobStatus.failed ∧
     (backupExit 3 2 ⟨create_job "job-7" 0, []⟩).record.error =
       some ("Backup script exited with code " ++ toString (2 : Int)) ∧
     (backupExit 3 2 ⟨create_job "job-7" 0, []⟩).logs.getLast? =
       some ⟨3, "ERROR", "Backup script exited with code " ++ toString (2 : Int)⟩) :=
  ⟨(c7_backup_exit_outcome 3 0 ⟨create_job "job-7" 0, []⟩).1 rfl,
   (c7_backup_exit_outcome 3 2 ⟨create_job "job-7" 0, []⟩).2 (by decide)⟩

def c1State0 : JobState := ⟨create_job "job-1" 0, []⟩

def c1Cancelled : JobState := ((cancelJobRoute 1 c1State0).getD (c1State0, true)).1

/-- C1: the code allows a transition out of the terminal state CANCELLED.
Interleaving realised by the code: the cancel route is taken while the job is
still PENDING (it then does not signal the background task, which has been
created but not yet scheduled), after which the task body performs its
unconditional RUNNING update. -/
theorem c1_terminal_state_left_after_cancel :
    (cancelJobRoute 1 c1State0).isSome = true ∧
    c1Cancelled.record.status = JobStatus.cancelled ∧
    c1Cancelled.record.status.isTerminal = true ∧
    (runJobStart 2 c1Cancelled).record.status = JobStatus.running := by
  decide

def c2State0 : JobState := ⟨create_job "job-2" 0, []⟩

def c2Cancelled : JobState := ((cancelJobRoute 1 c2State0).getD (c2State0, true)).1

def c2Signalled : Bool := ((cancelJobRoute 1 c2State0).getD (c2State0, true)).2

/-- C2: cancelling a PENDING job makes its status CANCELLED, but the route
does not signal the background task (it does so only for RUNNING jobs), so
when the already-created task is scheduled it sets the status to RUNNING:
the job is observed RUNNING after its cancellation. -/
theorem c2_cancelled_pending_job_observed_running :
    (cancelJobRoute 1 c2State0).isSome = true ∧
    c2Signalled = false ∧
    c2Cancelled.record.status = JobStatus.cancelled ∧
    (runJobStart 2 c2Cancelled).record.status = JobStatus.running := by
  decide

/-- C3 counterexample: `completed_at` is not immutable.  A FAILED update at
time 1 stamps it with 1, and a later CANCELLED update at time 2 (performed by
the cancel route, or by the cancelled task body after the route already
cancelled the job) overwrites it with 2. -/
theorem c3_counterexample_completed_at_overwritten :
    (update_job 1 { status := some JobStatus.failed } (create_job "job-3" 0)).completed_at
      = some 1 ∧
    (update_job 2 { status := some JobStatus.cancelled }
      (update_job 1 { status := some JobStatus.failed } (create_job "job-3" 0))).completed_at
      = some 2 := by
  decide

lemma applyUpdates_started_at (us : List (Nat × JobUpdate)) (j : JobRecord) :
    (applyUpdates j us).started_at =
      match j.started_at with
      | some t => some t
      | none =>
        (us.find? fun tu => decide (tu.2.status = some JobStatus.running)).map Prod.fst := by
  induction us generalizing j with
  | nil => cases hsa : j.started_at <;> simp [applyUpdates, hsa]
  | cons tu rest ih =>
    obtain ⟨t, u⟩ := tu
    rw [applyUpdates, ih]
    cases hsa : j.started_at with
    | some s =>
      have hkeep : (update_job t u j).started_at = some s := by
        rw [update_job_started_at, hsa]
        simp
      rw [hkeep]
    | none =>
      by_cases hr : u.status = some JobStatus.running
      · have hset : (update_job t u j).started_at = some t := by
          rw [update_job_started_at, hsa]
          simp [hr]
        rw [hset]
        simp [List.find?, hr]
      · have hnone : (update_job t u j).started_at = none := by
          rw [update_job_started_at, hsa]
          simp [hr]
        rw [hnone]
        simp [List.find?, hr]

lemma applyUpdates_completed_at (us : List (Nat × JobUpdate)) (j : JobRecord) :
    (applyUpdates j us).completed_at =
      match us.reverse.find? (fun tu => updTerminal tu.2) with
      | some tu => some tu.1
      | none => j.completed_at := by
  induction us generalizing j with
  | nil => simp [applyUpdates]
  | cons tu rest ih =>
    obtain ⟨t, u⟩ := tu
    rw [applyUpdates, ih]
    rw [List.reverse_cons, List.find?_append]
    cases hfr : rest.reverse.find? (fun tu => updTerminal tu.2) with
    | some x => simp
    | none =>
      by_cases ht : updTerminal u = true
      · simp [List.find?, ht, update_job_completed_at]
      · simp only [Bool.not_eq_true] at ht
        simp [List.find?, ht, update_job_completed_at]

/-- C3 amended: starting from creation, over any sequence of timed updates,
the final `started_at` is the time of the first update whose status is
RUNNING (set once, then immutable), while the final `completed_at` is the
time of the LAST update whose status is terminal — it is overwritten by every
later terminal-status update, not set exactly once. -/
theorem c3_amended_timestamp_lifecycle (id : String) (t0 : Nat)
    (us : List (Nat × JobUpdate)) :
    (applyUpdates (create_job id t0) us).started_at =
      (us.find? fun tu => decide (tu.2.status = some JobStatus.running)).map Prod.fst ∧
    (applyUpdates (create_job id t0) us).completed_at =
      (us.reverse.find? fun tu => updTerminal tu.2).map Prod.fst := by
  constructor
  · rw [applyUpdates_started_at]
    simp [create_job]
  · rw [applyUpdates_completed_at]
    cases hf : us.reverse.find? (fun tu => updTerminal tu.2) <;> simp [create_job]

lemma setupLoop_record (now : Nat) (ls : List String) (s : JobState) :
    (ls.foldl
      (fun st l => if pyStrip l = "" then st else add_log now "INFO" ("[setup] " ++ l) st)
      s).record = s.record := by
  induction ls generalizing s with
  | nil => rfl
  | cons a t ih =>
    rw [List.foldl_cons, ih]
    by_cases h : pyStrip a = "" <;> simp [h, add_log]

lemma setupStdoutLogs_record (now : Nat) (txt : String) (s : JobState) :
    (setupStdoutLogs now txt s).record = s.record := by
  unfold setupStdoutLogs
  by_cases h : txt = ""
  · simp [h]
  · simp [h, setupLoop_record]

/-- C6 amended: when the setup step exits non-zero, the job transitions to
FAILED with error text equal to the captured stderr when it is non-empty and
to the fallback text "Setup failed" when stderr is empty, the last log entry
is an ERROR entry carrying that text behind a "Setup failed: " marker, and
the backup step never runs. -/
theorem c6_amended_setup_failure (now : Nat) (rc : Int) (outTxt errTxt : String)
    (blines : List String) (brc : Int) (s : JobState) (h : rc ≠ 0) :
    (run_backup_job now rc outTxt errTxt blines brc s).2 = false ∧
    (run_backup_job now rc outTxt errTxt blines brc s).1.record.status = JobStatus.failed ∧
    (run_backup_job now rc outTxt errTxt blines brc s).1.record.error =
      some (if errTxt ≠ "" then errTxt else "Setup failed") ∧
    (run_backup_job now rc outTxt errTxt blines brc s).1.logs.getLast? =
      some ⟨now, "ERROR",
        "Setup failed: " ++ (if errTxt ≠ "" then errTxt else "Setup failed")⟩ := by
  simp [run_backup_job, run_setup_script, h, add_log, update_job_status, update_job_error,
    List.getLast?_concat]

theorem c6_amended_setup_failure_witness :
    (run_backup_job 5 1 "" "oops" [] 0 ⟨create_job "job-6w" 0, []⟩).2 = false ∧
    (run_backup_job 5 1 "" "oops" [] 0 ⟨create_job "job-6w" 0, []⟩).1.record.status
      = JobStatus.failed ∧
    (run_backup_job 5 1 "" "oops" [] 0 ⟨create_job "job-6w" 0, []⟩).1.record.error =
      some (if ("oops" : String) ≠ "" then "oops" else "Setup failed") ∧
    (run_backup_job 5 1 "" "oops" [] 0 ⟨create_job "job-6w" 0, []⟩).1.logs.getLast? =
      some ⟨5, "ERROR",
        "Setup failed: " ++ (if ("oops" : String) ≠ "" then "oops" else "Setup failed")⟩ :=
  c6_amended_setup_failure 5 1 "" "oops" [] 0 ⟨create_job "job-6w" 0, []⟩ (by decide)

def c6CexRun : JobState × Bool := run_backup_job 0 1 "" "" [] 0 ⟨create_job "job-6" 0, []⟩

/-- C6 counterexample: with a non-zero setup exit code and EMPTY captured
stderr, the recorded error is the fallback text "Setup failed", not the
captured stderr text (the empty string), so the claim as stated fails. -/
theorem c6_counterexample_empty_stderr :
    c6CexRun.1.record.error = some "Setup failed" ∧
    c6CexRun.1.record.error ≠ some "" := by
  decide

lemma foldl_deleteKey_apply {α : Type} (ks : List String) (f : String → Option α) (k : String) :
    (ks.foldl deleteKey f) k = if k ∈ ks then none else f k := by
  induction ks generalizing f with
  | nil => simp
  | cons a t ih =>
    rw [List.foldl_cons, ih]
    by_cases h : k ∈ t
    · simp [h]
    · by_cases hk : k = a <;> simp [h, hk, deleteKey]

lemma mem_zrangebyscore (idx : List (String × Nat)) (lo hi : Int) (k : String) :
    k ∈ zrangebyscore idx lo hi ↔
      ∃ sc : Nat, (k, sc) ∈ idx ∧ lo ≤ (sc : Int) ∧ (sc : Int) ≤ hi := by
  unfold zrangebyscore
  constructor
  · intro h
    obtain ⟨e, he, hk⟩ := List.mem_map.mp h
    obtain ⟨hmem, hp⟩ := List.mem_filter.mp he
    refine ⟨e.2, ?_, ?_, ?_⟩
    · simpa [← hk] using hmem
    · exact (of_decide_eq_true hp).1
    · exact (of_decide_eq_true hp).2
  · rintro ⟨sc, hmem, hlo, hhi⟩
    exact List.mem_map.mpr ⟨(k, sc),
      List.mem_filter.mpr ⟨hmem, decide_eq_true ⟨hlo, hhi⟩⟩, rfl⟩

/-- C9 amended: the sweep removes exactly the jobs whose index score
(creation time) is AT LEAST `maxAgeDays` days before the call — the inclusive
boundary `score ≤ now - maxAgeDays*86400` — deleting their records and log
lists and their index entries, returns the number of ids collected, and
leaves the record, logs and index entries of every other job unchanged. -/
theorem c9_amended_sweep (st : Store) (now maxAge : Int) :
    (cleanup_old_jobs now maxAge st).2
      = (zrangebyscore st.index 0 (now - maxAge * 86400)).length ∧
    (∀ k : String,
      (k ∈ zrangebyscore st.index 0 (now - maxAge * 86400) ↔
        ∃ sc : Nat, (k, sc) ∈ st.index ∧
          (0 : Int) ≤ (sc : Int) ∧ (sc : Int) ≤ now - maxAge * 86400)) ∧
    (∀ k : String, k ∈ zrangebyscore st.index 0 (now - maxAge * 86400) →
      (cleanup_old_jobs now maxAge st).1.records k = none ∧
      (cleanup_old_jobs now maxAge st).1.jobLogs k = none) ∧
    (∀ k : String, k ∉ zrangebyscore st.index 0 (now - maxAge * 86400) →
      (cleanup_old_jobs now maxAge st).1.records k = st.records k ∧
      (cleanup_old_jobs now maxAge st).1.jobLogs k = st.jobLogs k) ∧
    (cleanup_old_jobs now maxAge st).1.index =
      st.index.filter
        (fun e => !decide ((0 : Int) ≤ (e.2 : Int) ∧ (e.2 : Int) ≤ now - maxAge * 86400)) := by
  refine ⟨rfl, fun k => mem_zrangebyscore st.index 0 (now - maxAge * 86400) k, ?_, ?_, rfl⟩
  · intro k hk
    constructor <;> simp [cleanup_old_jobs, foldl_deleteKey_apply, hk]
  · intro k hk
    constructor <;> simp [cleanup_old_jobs, foldl_deleteKey_apply, hk]

def c9Store : Store :=
  { index := [("old1", 0), ("new1", 605000)]
    records := fun k =>
      if k = "old1" then some (create_job "old1" 0)
      else if k = "new1" then some (create_job "new1" 605000) else none
    jobLogs := fun k =>
      if k = "old1" then some [] else if k = "new1" then some [] else none }

theorem c9_amended_sweep_witness :
    (cleanup_old_jobs 604900 7 c9Store).1.records "old1" = none ∧
    (cleanup_old_jobs 604900 7 c9Store).1.records "new1" = c9Store.records "new1" :=
  ⟨((c9_amended_sweep c9Store 604900 7).2.2.1 "old1" (by decide)).1,
   ((c9_amended_sweep c9Store 604900 7).2.2.2.1 "new1" (by decide)).1⟩

def c9BoundaryStore : Store :=
  { index := [("jb", 0)]
    records := fun k => if k = "jb" then some (create_job "jb" 0) else none
    jobLogs := fun _ => none }

/-- C9 counterexample: a job created EXACTLY 7 days before the call (score 0,
now = 7*86400, so its age is not MORE than 7 days) is nevertheless removed by
the sweep, because `ZRANGEBYSCORE 0 cutoff` is inclusive of the cutoff. -/
theorem c9_counterexample_boundary_seven_days :
    (cleanup_old_jobs (7 * 86400) 7 c9BoundaryStore).2 = 1 ∧
    (cleanup_old_jobs (7 * 86400) 7 c9BoundaryStore).1.records "jb" = none ∧
    ¬((0 : Int) < 7 * 86400 - 7 * 86400) := by
  refine ⟨rfl, ?_, by decide⟩
  simp [cleanup_old_jobs, foldl_deleteKey_apply, zrangebyscore, c9BoundaryStore, deleteKey]

lemma strIn_mono (p q line : String) (h : p.toList <:+: q.toList) :
    strIn q line = true → strIn p line = true := by
  intro hq
  rw [strIn_iff] at hq ⊢
  exact h.trans hq

lemma or_collapse (a b : Bool) (h : a = true → b = true) : (a || b) = b := by
  cases a
  · simp
  · simp [h rfl]

/-- The severity rule exactly as the claim words it: plain substrings ERROR,
WARN, SUCCESS scanned in that order, case-sensitive, first match wins,
default INFO. -/
def claimSeverity (line : String) : String :=
  if strIn "ERROR" line then "ERROR"
  else if strIn "WARN" line then "WARN"
  else if strIn "SUCCESS" line then "SUCCESS"
  else "INFO"

lemma parse_log_level_eq_claim (line : String) :
    parse_log_level line = claimSeverity line := by
  have e1 : (strIn "[ERROR]" line || strIn "ERROR" line) = strIn "ERROR" line :=
    or_collapse _ _ (strIn_mono _ _ line (by decide))
  have e2 : (strIn "[WARN]" line || strIn "WARN" line) = strIn "WARN" line :=
    or_collapse _ _ (strIn_mono _ _ line (by decide))
  have e3 : (strIn "[SUCCESS]" line || strIn "SUCCESS" line) = strIn "SUCCESS" line :=
    or_collapse _ _ (strIn_mono _ _ line (by decide))
  simp only [parse_log_level, claimSeverity, e1, e2, e3]

/-- C4: for every non-empty stripped output line the controller appends
exactly one log entry, whose severity follows the claimed ERROR, WARN,
SUCCESS, INFO chain on the plain substrings (the bracketed alternatives of
the source are redundant), and then sets progress and current step from the
first entry of the ordered keyword table matching case-insensitively — or
leaves both untouched when no keyword matches. -/
theorem c4_line_log_and_progress (now : Nat) (s : JobState) (rawLine : String)
    (h : pyStrip rawLine ≠ "") :
    (processLine now s rawLine).logs =
      s.logs ++ [⟨now, claimSeverity (pyStrip rawLine), pyStrip rawLine⟩] ∧
    ((processLine now s rawLine).record.progress,
      (processLine now s rawLine).record.current_step) =
      (match firstKeyword (pyStrip rawLine) with
        | some kv => (kv.2, kv.1)
        | none => (s.record.progress, s.record.current_step)) := by
  unfold processLine
  rw [if_neg h]
  cases hk : firstKeyword (pyStrip rawLine) with
  | none => simp [hk, add_log, parse_log_level_eq_claim]
  | some kv =>
    simp [hk, add_log, parse_log_level_eq_claim,
      update_job_progress, update_job_current_step]

theorem c4_line_log_and_progress_witness :
    (pyStrip "[INFO] Performing secure compression" ≠ "") ∧
    ((processLine 4 ⟨create_job "job-4" 0, []⟩ "[INFO] Performing secure compression").logs =
      [] ++ [⟨4, claimSeverity (pyStrip "[INFO] Performing secure compression"),
        pyStrip "[INFO] Performing secure compression"⟩] ∧
     ((processLine 4 ⟨create_job "job-4" 0, []⟩
        "[INFO] Performing secure compression").record.progress,
      (processLine 4 ⟨create_job "job-4" 0, []⟩
        "[INFO] Performing secure compression").record.current_step) =
      (match firstKeyword (pyStrip "[INFO] Performing secure compression") with
        | some kv => (kv.2, kv.1)
        | none => ((create_job "job-4" 0).progress, (create_job "job-4" 0).current_step))) :=
  ⟨by decide,
   c4_line_log_and_progress 4 ⟨create_job "job-4" 0, []⟩
     "[INFO] Performing secure compression" (by decide)⟩

def c5Line : String := "Logging out then Unlocking vault"

/-- C5 counterexample: a line that contains "Unlocking vault" but also the
earlier table keyword "Logging out" gets progress 25 and current step
"Logging out", because the scan stops at the first matching keyword. -/
theorem c5_counterexample_earlier_keyword_wins :
    strIn "Unlocking vault" c5Line = true ∧
    (processLine 0 ⟨create_job "job-5" 0, []⟩ c5Line).record.progress = 25 ∧
    (processLine 0 ⟨create_job "job-5" 0, []⟩ c5Line).record.current_step = "Logging out" := by
  decide

/-- C5 amended: for every output line whose stripped text contains
"Unlocking vault" (case-insensitively) and contains NONE of the five keywords
that precede it in the ordered table ("Logging out", "Checking for required
dependencies", "Validating environment", "Configuring Bitwarden server",
"Logging into Bitwarden"), the status after the line is processed shows
progress 50 and current step "Unlocking vault".  Without that proviso an
earlier keyword occurring in the same line wins the scan. -/
theorem c5_amended_unlocking_vault_progress (now : Nat) (s : JobState) (rawLine : String)
    (h0 : strIn "unlocking vault" (lowerStr (pyStrip rawLine)) = true)
    (h1 : strIn "logging out" (lowerStr (pyStrip rawLine)) = false)
    (h2 : strIn "checking for required dependencies" (lowerStr (pyStrip rawLine)) = false)
    (h3 : strIn "validating environment" (lowerStr (pyStrip rawLine)) = false)
    (h4 : strIn "configuring bitwarden server" (lowerStr (pyStrip rawLine)) = false)
    (h5 : strIn "logging into bitwarden" (lowerStr (pyStrip rawLine)) = false) :
    (processLine now s rawLine).record.progress = 50 ∧
    (processLine now s rawLine).record.current_step = "Unlocking vault" := by
  have hne : pyStrip rawLine ≠ "" := by
    intro he
    rw [he] at h0
    exact absurd h0 (by decide)
  have e1 : lowerStr "Logging out" = "logging out" := by decide
  have e2 : lowerStr "Checking for required dependencies"
      = "checking for required dependencies" := by decide
  have e3 : lowerStr "Validating environment" = "validating environment" := by decide
  have e4 : lowerStr "Configuring Bitwarden server"
      = "configuring bitwarden server" := by decide
  have e5 : lowerStr "Logging into Bitwarden" = "logging into bitwarden" := by decide
  have e6 : lowerStr "Unlocking vault" = "unlocking vault" := by decide
  have hfk : firstKeyword (pyStrip rawLine) = some ("Unlocking vault", 50) := by
    unfold firstKeyword PROGRESS_MAP
    simp only [List.find?, e1, e2, e3, e4, e5, e6, h0, h1, h2, h3, h4, h5]
  unfold processLine
  rw [if_neg hne, hfk]
  simp [add_log, update_job_progress, update_job_current_step]

theorem c5_amended_unlocking_vault_progress_witness :
    (strIn "unlocking vault" (lowerStr (pyStrip "[INFO] Unlocking vault now")) = true) ∧
    ((processLine 0 ⟨create_job "job-5w" 0, []⟩ "[INFO] Unlocking vault now").record.progress
      = 50 ∧
     (processLine 0 ⟨create_job "job-5w" 0, []⟩ "[INFO] Unlocking vault now").record.current_step
      = "Unlocking vault") :=
  ⟨by decide,
   c5_amended_unlocking_vault_progress 0 ⟨create_job "job-5w" 0, []⟩
     "[INFO] Unlocking vault now" (by decide) (by decide) (by decide) (by decide)
     (by decide) (by decide)⟩
